import Mathlib

/-!
Verification of the Avellaneda-Stoikov grid-trading quote engine
(`avellaneda_bot.py`) and its parameter calibrator (`avellaneda_utils.py`).

Modelling conventions (shallow embedding):
* Python floats are modelled as exact numbers.  Every quantity that the code
  only adds, multiplies, divides or compares is kept in `ℚ` (Python float
  values are rationals, and all branch conditions are decidably evaluated
  there); quantities produced by `math.log` / `np.sqrt` live in `ℝ`.
* Exceptions are modelled explicitly: the `try/except` around the delta
  formula becomes a branch on the exact conditions under which Python raises
  (`ZeroDivisionError` from `1/gamma` or `gamma/eta`, `ValueError` from
  `math.log` on a non-positive argument).
* External collaborator methods of the base `GridTradingBot` (order
  placement, cancellation, side initialisation, position reduction) are
  modelled as emitted events together with an environment `Env` saying which
  calls raise; a raised call aborts the remaining statements of its Python
  block exactly as the exception would.
-/

/-- The two position sides of the grid strategy (Python strings
`'long'` / `'short'`). -/
inductive Side where
  | long
  | short
deriving DecidableEq

/-- Direction argument of `place_order` (Python strings `'buy'` / `'sell'`). -/
inductive OrderDir where
  | buy
  | sell
deriving DecidableEq

/-- One call to an external collaborator method of the base engine.  The
constant `ccxt_symbol` argument of `place_take_profit_order` is dropped.
`initLongOrders` / `initShortOrders` stand for the side-initialisation
primitives `self.init..._long_orders()` / `self.init..._short_orders()` of
the external base engine. -/
inductive ExtCall where
  | checkAndReducePositions
  | initLongOrders
  | initShortOrders
  | getTakeProfitQuantity (position : ℚ) (side : Side)
  | cancelOrdersForSide (side : Side)
  | placeTakeProfitOrder (side : Side) (price : ℝ) (qty : ℚ)
  | placeOrder (dir : OrderDir) (price : ℝ) (qty : ℚ) (reduceOnly : Bool) (side : Side)

/-- Fault-injection environment: `ok c = true` means the external call `c`
returns normally, `ok c = false` means it raises an exception. -/
structure Env where
  ok : ExtCall → Bool

/-- Module constant `POSITION_THRESHOLD = 500`. -/
def POSITION_THRESHOLD : ℚ := 500

/-- Module constant `ORDER_COOLDOWN_TIME = 60`. -/
def ORDER_COOLDOWN_TIME : ℚ := 60

/-- The mutable fields of `AvellanedaGridBot` read or written by the code
under verification.  Inventory/time/position fields are owned by the
external base engine and mirrored here read-only; quote fields are written
by `calculate_avellaneda_prices` and `update_mid_price`. -/
structure BotState where
  gamma : ℚ := 0
  eta : ℚ := 0
  sigma : ℚ := 0
  T_end : ℚ := 0
  grid_spacing : ℚ := 0
  long_position : ℚ := 0
  short_position : ℚ := 0
  inventory : ℚ := 0
  reserve_price : ℚ := 0
  best_bid : ℝ := 0
  best_ask : ℝ := 0
  latest_price : ℚ := 0
  last_long_order_time : ℚ := 0
  last_short_order_time : ℚ := 0
  sell_long_orders : ℚ := 0
  buy_short_orders : ℚ := 0
  long_initial_quantity : ℚ := 0
  short_initial_quantity : ℚ := 0
  upper_price_long : ℝ := 0
  upper_price_short : ℝ := 0
  lower_price_long : ℝ := 0
  lower_price_short : ℝ := 0
  mid_price_long : ℚ := 0
  mid_price_short : ℚ := 0

/-- Lines 66-72 of `avellaneda_bot.py`: the optimal half spread.  Python
raises `ZeroDivisionError` on `1/gamma` when `gamma == 0`, on `gamma/eta`
when `eta == 0`, and `math.log` raises `ValueError` when its argument is
not positive; in each of those cases the `except` clause selects the
grid-spacing fallback `self.grid_spacing * price * 0.5`. -/
noncomputable def avellanedaDelta (gamma eta sigma T grid_spacing price : ℚ) : ℝ :=
  if gamma = 0 ∨ eta = 0 ∨ 1 + gamma / eta ≤ 0 then
    (grid_spacing : ℝ) * (price : ℝ) * 0.5
  else
    0.5 * (gamma : ℝ) * (sigma : ℝ) ^ 2 * (T : ℝ)
      + 1 / (gamma : ℝ) * Real.log (1 + (gamma : ℝ) / (eta : ℝ))

/-- Lines 50-82 of `avellaneda_bot.py`, method `_calculate_avellaneda_prices`:
update inventory, reserve price and the zero-clamped best quotes. -/
noncomputable def calculate_avellaneda_prices (s : BotState) (price : ℚ) : BotState :=
  let inventory := s.long_position - s.short_position
  let T := s.T_end
  let reserve_price := price - inventory * s.gamma * s.sigma ^ 2 * T
  let delta := avellanedaDelta s.gamma s.eta s.sigma T s.grid_spacing price
  let best_bid := (reserve_price : ℝ) - delta
  let best_ask := (reserve_price : ℝ) + delta
  { s with
      inventory := inventory
      reserve_price := reserve_price
      best_bid := max 0 best_bid
      best_ask := max 0 best_ask }

/-- Lines 85-89 of `avellaneda_bot.py`: recompute the quote and copy it into
both sides of the grid bounds.  The `side` argument is accepted but never
read by the body. -/
noncomputable def update_mid_price (s : BotState) (side : Option Side) (price : ℚ) : BotState :=
  let s' := calculate_avellaneda_prices s price
  { s' with
      upper_price_long := s'.best_ask
      upper_price_short := s'.best_ask
      lower_price_long := s'.best_bid
      lower_price_short := s'.best_bid
      mid_price_long := s'.reserve_price
      mid_price_short := s'.reserve_price }

/-- The sequence of external calls attempted by the body of
`place_long_orders` (lines 96-107) after the quote update, in program
order.  The state `s` is the state after `update_mid_price`. -/
def long_order_calls (s : BotState) : List ExtCall :=
  ExtCall.getTakeProfitQuantity s.long_position Side.long ::
    (if 0 < s.long_position then
      if POSITION_THRESHOLD < s.long_position then
        if s.sell_long_orders ≤ 0 then
          [ExtCall.placeTakeProfitOrder Side.long s.best_ask s.long_initial_quantity]
        else []
      else
        [ExtCall.cancelOrdersForSide Side.long,
          ExtCall.placeTakeProfitOrder Side.long s.best_ask s.long_initial_quantity,
          ExtCall.placeOrder OrderDir.buy s.best_bid s.long_initial_quantity false Side.long]
    else [])

/-- The sequence of external calls attempted by the body of
`place_short_orders` (lines 116-127), in program order. -/
def short_order_calls (s : BotState) : List ExtCall :=
  ExtCall.getTakeProfitQuantity s.short_position Side.short ::
    (if 0 < s.short_position then
      if POSITION_THRESHOLD < s.short_position then
        if s.buy_short_orders ≤ 0 then
          [ExtCall.placeTakeProfitOrder Side.short s.best_bid s.short_initial_quantity]
        else []
      else
        [ExtCall.cancelOrdersForSide Side.short,
          ExtCall.placeTakeProfitOrder Side.short s.best_bid s.short_initial_quantity,
          ExtCall.placeOrder OrderDir.sell s.best_ask s.short_initial_quantity false Side.short]
    else [])

/-- Run a block of external calls in order; a call whose `Env` flag is
`false` raises, so the following calls of the block are not reached.  The
returned list is the calls actually attempted, the Bool is `true` exactly
when no call raised. -/
def tryCalls (env : Env) : List ExtCall → List ExtCall × Bool
  | [] => ([], true)
  | c :: cs =>
      if env.ok c then
        let r := tryCalls env cs
        (c :: r.1, r.2)
      else ([c], false)

/-- Lines 92-110 of `avellaneda_bot.py`, method `place_long_orders`: update
the quote, then attempt the order actions; the whole body is wrapped in
`try/except Exception`, so an exception from any external call is caught
and logged and the method returns normally. -/
noncomputable def place_long_orders (env : Env) (s : BotState) (latest_price : ℚ) :
    List ExtCall × BotState :=
  let s' := update_mid_price s (some Side.long) latest_price
  ((tryCalls env (long_order_calls s')).1, s')

/-- Lines 112-130 of `avellaneda_bot.py`, method `place_short_orders`. -/
noncomputable def place_short_orders (env : Env) (s : BotState) (latest_price : ℚ) :
    List ExtCall × BotState :=
  let s' := update_mid_price s (some Side.short) latest_price
  ((tryCalls env (short_order_calls s')).1, s')

/-- Lines 141-145 of `adjust_grid_strategy`: the long-side branch.  With no
position the external side-initialisation primitive is awaited directly
(it is NOT inside any `try`, so the Bool records whether it raised); with a
position, the branch runs `place_long_orders` unless the threshold-and-
cooldown condition holds, and `place_long_orders` never raises. -/
noncomputable def adjust_long_branch (env : Env) (s : BotState) (now : ℚ) :
    List ExtCall × BotState × Bool :=
  if s.long_position = 0 then
    ([ExtCall.initLongOrders], s, env.ok ExtCall.initLongOrders)
  else
    if POSITION_THRESHOLD < s.long_position ∧
        now - s.last_long_order_time < ORDER_COOLDOWN_TIME then
      ([], s, true)
    else
      let r := place_long_orders env s s.latest_price
      (r.1, r.2, true)

/-- Lines 147-151 of `adjust_grid_strategy`: the short-side branch. -/
noncomputable def adjust_short_branch (env : Env) (s : BotState) (now : ℚ) :
    List ExtCall × BotState × Bool :=
  if s.short_position = 0 then
    ([ExtCall.initShortOrders], s, env.ok ExtCall.initShortOrders)
  else
    if POSITION_THRESHOLD < s.short_position ∧
        now - s.last_short_order_time < ORDER_COOLDOWN_TIME then
      ([], s, true)
    else
      let r := place_short_orders env s s.latest_price
      (r.1, r.2, true)

/-- Lines 133-151 of `avellaneda_bot.py`, method `adjust_grid_strategy`:
one tick.  `check_and_reduce_positions` is called outside any `try`, so its
failure aborts the tick; the top-of-tick quote refresh runs only when
`latest_price` is truthy (Python: `0.0` and `None` are falsy, modelled as
`latest_price = 0`); an uncaught exception in the long branch (only the
side-initialisation call can raise there) prevents the short branch from
running.  Returns the attempted external calls in order, the final state,
and `true` exactly when the tick finished without an uncaught exception. -/
noncomputable def adjust_grid_strategy (env : Env) (s : BotState) (now : ℚ) :
    List ExtCall × BotState × Bool :=
  if env.ok ExtCall.checkAndReducePositions then
    let s1 := if s.latest_price ≠ 0 then update_mid_price s none s.latest_price else s
    let rl := adjust_long_branch env s1 now
    if rl.2.2 then
      let rs := adjust_short_branch env rl.2.1 now
      (ExtCall.checkAndReducePositions :: (rl.1 ++ rs.1), rs.2.1, rs.2.2)
    else
      (ExtCall.checkAndReducePositions :: rl.1, rl.2.1, false)
  else
    ([ExtCall.checkAndReducePositions], s, false)

/-- Line 55 of `avellaneda_utils.py`: per-period log returns
`r_i = ln(close_i / close_im1)` (the `shift(1)` column, with the leading
NaN dropped, as `pandas` std skips it). -/
noncomputable def logReturns : List ℚ → List ℝ
  | [] => []
  | [_] => []
  | a :: b :: rest => Real.log ((b : ℚ) / a : ℚ) :: logReturns (b :: rest)

/-- Arithmetic mean of a list of reals. -/
noncomputable def sampleMean (xs : List ℝ) : ℝ := xs.sum / xs.length

/-- Sample variance with the `pandas` default `ddof = 1`. -/
noncomputable def sampleVariance (xs : List ℝ) : ℝ :=
  (xs.map (fun x => (x - sampleMean xs) ^ 2)).sum / ((xs.length : ℝ) - 1)

/-- Sample standard deviation (square root of `sampleVariance`). -/
noncomputable def sampleStd (xs : List ℝ) : ℝ := Real.sqrt (sampleVariance xs)

/-- Lines 48-60 of `avellaneda_utils.py`, `calculate_historical_volatility`:
fewer than two candles returns `0.0`; the `pandas` sample standard
deviation (`ddof = 1`) of a single log return is NaN, mapped to `0.0` by
the final `math.isnan` guard (a single return happens exactly when there
are two candles); otherwise the sample standard deviation of the log
returns.  Closes are prices, carried in `ℚ`; float NaN/inf arising from
non-positive closes is outside the model. -/
noncomputable def calculate_historical_volatility (closes : List ℚ) : ℝ :=
  if closes.length < 2 then 0
  else if (logReturns closes).length < 2 then 0
  else sampleStd (logReturns closes)

/-- Lines 62-75 of `avellaneda_utils.py`, `estimate_eta_from_fee`:
`K_calib / taker_fee_rate` with `K_calib = 0.05` for a positive fee rate,
else the degenerate high value `500.0`. -/
def estimate_eta_from_fee (taker_fee_rate : ℚ) : ℚ :=
  if 0 < taker_fee_rate then 0.05 / taker_fee_rate else 500

/-- One row of the candlestick table kept by `get_gateio_kline`
(`open` is a Lean keyword, stored as `open_price`). -/
structure Candle where
  timestamp : ℚ
  open_price : ℚ
  high : ℚ
  low : ℚ
  close : ℚ

/-- The HTTP response of the candlestick endpoint, as seen after
`response.raise_for_status()` and `response.json()`: either an exception
that is an instance of `requests.RequestException` (network failure,
timeout, non-2xx status, JSON decode failure), or a decoded JSON array of
rows.  Numeric string parsing is abstracted: fields are already numbers. -/
inductive KlineResp where
  | netErr
  | ok (rows : List (List ℚ))

/-- Insertion of a candle into a timestamp-sorted list
(`df.sort_values("timestamp")`). -/
def insertByTimestamp (c : Candle) : List Candle → List Candle
  | [] => [c]
  | d :: ds =>
      if c.timestamp ≤ d.timestamp then c :: d :: ds else d :: insertByTimestamp c ds

/-- Sort candles ascending by timestamp. -/
def sortByTimestamp : List Candle → List Candle
  | [] => []
  | c :: cs => insertByTimestamp c (sortByTimestamp cs)

/-- Column layout of the Gate.io response rows:
`[timestamp, volume_quote, close, high, low, open, volume_base, closed]`. -/
def candleOfRow (r : List ℚ) : Candle :=
  { timestamp := r.getD 0 0
    open_price := r.getD 5 0
    high := r.getD 3 0
    low := r.getD 4 0
    close := r.getD 2 0 }

/-- Lines 15-45 of `avellaneda_utils.py`, `get_gateio_kline`.  The
`except` clause catches only `requests.RequestException`, mapping it to an
empty table.  An empty JSON array yields an empty `DataFrame`, returned
early.  A non-empty array whose rows do not have exactly the 8 declared
columns makes `pd.DataFrame(data, columns=[...])` raise `ValueError`
(for example `8 columns passed, passed data had 2 columns`), which is NOT
caught and propagates to the caller; this is the `Except.error` case. -/
def get_gateio_kline (resp : KlineResp) : Except String (List Candle) :=
  match resp with
  | KlineResp.netErr => Except.ok []
  | KlineResp.ok rows =>
      if rows = [] then Except.ok []
      else if rows.all (fun r => r.length = 8) then
        Except.ok (sortByTimestamp (rows.map candleOfRow))
      else
        Except.error "ValueError: mismatched number of columns"

/-- Lines 77-102 of `avellaneda_utils.py`, `auto_calculate_params`: fetch
the candles (an uncaught `ValueError` from `get_gateio_kline` propagates),
estimate the volatility, override it with the safe default `0.005` when it
is below `1e-5`, and pair it with the fee-derived eta. -/
noncomputable def auto_calculate_params (resp : KlineResp) (taker_fee : ℚ) :
    Except String (ℝ × ℚ) :=
  match get_gateio_kline resp with
  | Except.error e => Except.error e
  | Except.ok kline =>
      let sigma0 := calculate_historical_volatility (kline.map Candle.close)
      let sigma : ℝ := if sigma0 < 1e-5 then 0.005 else sigma0
      Except.ok (sigma, estimate_eta_from_fee taker_fee)

@[simp]
lemma calc_prices_long_position (s : BotState) (price : ℚ) :
    (calculate_avellaneda_prices s price).long_position = s.long_position := rfl

@[simp]
lemma calc_prices_short_position (s : BotState) (price : ℚ) :
    (calculate_avellaneda_prices s price).short_position = s.short_position := rfl

@[simp]
lemma calc_prices_latest_price (s : BotState) (price : ℚ) :
    (calculate_avellaneda_prices s price).latest_price = s.latest_price := rfl

@[simp]
lemma update_mid_price_long_position (s : BotState) (side : Option Side) (price : ℚ) :
    (update_mid_price s side price).long_position = s.long_position := rfl

@[simp]
lemma update_mid_price_short_position (s : BotState) (side : Option Side) (price : ℚ) :
    (update_mid_price s side price).short_position = s.short_position := rfl

@[simp]
lemma update_mid_price_latest_price (s : BotState) (side : Option Side) (price : ℚ) :
    (update_mid_price s side price).latest_price = s.latest_price := rfl

@[simp]
lemma update_mid_price_last_long (s : BotState) (side : Option Side) (price : ℚ) :
    (update_mid_price s side price).last_long_order_time = s.last_long_order_time := rfl

@[simp]
lemma update_mid_price_last_short (s : BotState) (side : Option Side) (price : ℚ) :
    (update_mid_price s side price).last_short_order_time = s.last_short_order_time := rfl

/-- C1.  The quote computation sets
`reservePrice = S - q * gamma * sigma^2 * T_end` with the net inventory
`q = longPosition - shortPosition`; in particular the end-to-end scenario
`gamma=1.0, sigma=0.005, eta=100.0, T_end=1, inventory=0, marketPrice=0.5`
yields `reservePrice = 0.5`. -/
theorem C1_reserve_price_formula (s : BotState) (price : ℚ) :
    (calculate_avellaneda_prices s price).inventory = s.long_position - s.short_position
  ∧ (calculate_avellaneda_prices s price).reserve_price
      = price - (s.long_position - s.short_position) * s.gamma * s.sigma ^ 2 * s.T_end
  ∧ (calculate_avellaneda_prices
        { gamma := 1, sigma := 0.005, eta := 100, T_end := 1 } 0.5).reserve_price = 0.5 := by
  refine ⟨rfl, rfl, ?_⟩
  show (0.5 : ℚ) - (0 - 0) * 1 * (0.005 : ℚ) ^ 2 * 1 = 0.5
  norm_num

/-- C10.  The `side` argument of `update_mid_price` has no effect: any two
side arguments (including `none`, the Python `None`) give identical result
states, and both sides of the grid bounds receive the same values — the
upper bounds get `best_ask`, the lower bounds get `best_bid`, and the mid
prices get `reserve_price` of the freshly computed quote. -/
theorem C10_update_mid_price_side_irrelevant (s : BotState) (price : ℚ) (a b : Option Side) :
    update_mid_price s a price = update_mid_price s b price
  ∧ (update_mid_price s a price).upper_price_long
      = (calculate_avellaneda_prices s price).best_ask
  ∧ (update_mid_price s a price).upper_price_short
      = (calculate_avellaneda_prices s price).best_ask
  ∧ (update_mid_price s a price).lower_price_long
      = (calculate_avellaneda_prices s price).best_bid
  ∧ (update_mid_price s a price).lower_price_short
      = (calculate_avellaneda_prices s price).best_bid
  ∧ (update_mid_price s a price).mid_price_long
      = (calculate_avellaneda_prices s price).reserve_price
  ∧ (update_mid_price s a price).mid_price_short
      = (calculate_avellaneda_prices s price).reserve_price :=
  ⟨rfl, rfl, rfl, rfl, rfl, rfl, rfl⟩

/-- C8.  When a side has no position, its branch of the tick performs only
the external side-initialisation call and returns the state unchanged: no
quote computation happens for that side, so no quote-derived state
(reserve price, best bid/ask, grid bounds) is written by handling it. -/
theorem C8_no_position_only_init (env : Env) (s : BotState) (now : ℚ) :
    (s.long_position = 0 →
      adjust_long_branch env s now
        = ([ExtCall.initLongOrders], s, env.ok ExtCall.initLongOrders))
  ∧ (s.short_position = 0 →
      adjust_short_branch env s now
        = ([ExtCall.initShortOrders], s, env.ok ExtCall.initShortOrders)) := by
  constructor
  · intro h
    simp [adjust_long_branch, h]
  · intro h
    simp [adjust_short_branch, h]

/-- Witness for C8 at a concrete zero-position state. -/
theorem C8_no_position_only_init_witness :
    (({ } : BotState).long_position = 0
      ∧ adjust_long_branch ⟨fun _ => true⟩ { } 7
          = ([ExtCall.initLongOrders], { }, true))
  ∧ (({ } : BotState).short_position = 0
      ∧ adjust_short_branch ⟨fun _ => true⟩ { } 7
          = ([ExtCall.initShortOrders], { }, true)) :=
  ⟨⟨rfl, (C8_no_position_only_init ⟨fun _ => true⟩ { } 7).1 rfl⟩,
    ⟨rfl, (C8_no_position_only_init ⟨fun _ => true⟩ { } 7).2 rfl⟩⟩

/-- C2.  For a non-zero risk aversion `gamma` (the engine fixes
`gamma = 1.0`): when the Avellaneda spread formula is defined, i.e.
`eta` is non-zero and the log argument `1 + gamma/eta` is positive, the
half spread equals
`0.5 * gamma * sigma^2 * T_end + (1/gamma) * ln(1 + gamma/eta)`; when it
is undefined (`eta = 0` raising `ZeroDivisionError`, or a non-positive log
argument raising `ValueError`), the exception is recovered locally and the
half spread equals `gridSpacing * marketPrice * 0.5`.  Totality of
`avellanedaDelta` is the no-exception-propagates part. -/
theorem C2_delta_formula_and_fallback
    (gamma eta sigma T grid_spacing price : ℚ) (hγ : gamma ≠ 0) :
    (eta ≠ 0 → 0 < 1 + gamma / eta →
      avellanedaDelta gamma eta sigma T grid_spacing price
        = 0.5 * (gamma : ℝ) * (sigma : ℝ) ^ 2 * (T : ℝ)
            + 1 / (gamma : ℝ) * Real.log (1 + (gamma : ℝ) / (eta : ℝ)))
  ∧ (eta = 0 ∨ 1 + gamma / eta ≤ 0 →
      avellanedaDelta gamma eta sigma T grid_spacing price
        = (grid_spacing : ℝ) * (price : ℝ) * 0.5) := by
  constructor
  · intro hη hlog
    rw [avellanedaDelta, if_neg]
    push_neg
    exact ⟨hγ, hη, hlog⟩
  · intro h
    rw [avellanedaDelta, if_pos]
    rcases h with h | h
    · exact Or.inr (Or.inl h)
    · exact Or.inr (Or.inr h)

/-- Witness for C2: the defined branch at the calibrated parameters
`gamma=1, eta=100`, and the fallback branch at the uninitialised
`eta = 0`. -/
theorem C2_delta_formula_and_fallback_witness :
    ((1 : ℚ) ≠ 0 ∧ (100 : ℚ) ≠ 0 ∧ (0 : ℚ) < 1 + 1 / 100
      ∧ avellanedaDelta 1 100 0.005 1 0.0006 0.5
          = 0.5 * ((1 : ℚ) : ℝ) * (((0.005 : ℚ)) : ℝ) ^ 2 * ((1 : ℚ) : ℝ)
              + 1 / ((1 : ℚ) : ℝ) * Real.log (1 + ((1 : ℚ) : ℝ) / ((100 : ℚ) : ℝ)))
  ∧ avellanedaDelta 1 0 0.005 1 0.0006 0.5
      = ((0.0006 : ℚ) : ℝ) * ((0.5 : ℚ) : ℝ) * 0.5 :=
  ⟨⟨by norm_num, by norm_num, by norm_num,
      (C2_delta_formula_and_fallback 1 100 0.005 1 0.0006 0.5 (by norm_num)).1
        (by norm_num) (by norm_num)⟩,
    (C2_delta_formula_and_fallback 1 0 0.005 1 0.0006 0.5 (by norm_num)).2 (Or.inl rfl)⟩

/-- Under the engine operating regime (positive risk aversion, non-negative
cost coefficient, horizon, grid spacing and market price) the half spread
is non-negative on both the formula branch and the fallback branch. -/
lemma avellanedaDelta_nonneg (gamma eta sigma T grid_spacing price : ℚ)
    (hγ : 0 < gamma) (hη : 0 ≤ eta) (hT : 0 ≤ T)
    (hgs : 0 ≤ grid_spacing) (hp : 0 ≤ price) :
    0 ≤ avellanedaDelta gamma eta sigma T grid_spacing price := by
  rw [avellanedaDelta]
  split_ifs with h
  · have h1 : (0 : ℝ) ≤ (grid_spacing : ℚ) := by exact_mod_cast hgs
    have h2 : (0 : ℝ) ≤ (price : ℚ) := by exact_mod_cast hp
    positivity
  · push_neg at h
    obtain ⟨-, hη0, -⟩ := h
    have hηpos : 0 < eta := lt_of_le_of_ne hη (Ne.symm hη0)
    have hγR : (0 : ℝ) < (gamma : ℚ) := by exact_mod_cast hγ
    have hηR : (0 : ℝ) < (eta : ℚ) := by exact_mod_cast hηpos
    have hTR : (0 : ℝ) ≤ (T : ℚ) := by exact_mod_cast hT
    have hterm1 : (0 : ℝ) ≤ 0.5 * (gamma : ℚ) * ((sigma : ℚ) : ℝ) ^ 2 * (T : ℚ) := by
      positivity
    have hlog : (0 : ℝ) ≤ Real.log (1 + (gamma : ℚ) / (eta : ℚ)) := by
      apply Real.log_nonneg
      have : (0 : ℝ) ≤ (gamma : ℚ) / (eta : ℚ) := le_of_lt (div_pos hγR hηR)
      linarith
    have hterm2 : (0 : ℝ) ≤ 1 / (gamma : ℚ) * Real.log (1 + (gamma : ℚ) / (eta : ℚ)) := by
      apply mul_nonneg _ hlog
      positivity
    linarith

/-- C3.  After a quote computation with positive `gamma`, non-negative
`eta`, `T_end`, `grid_spacing` and market price: whenever the `max(0, _)`
clamp does not alter the bid (so it alters neither bound, the ask being
the larger), the ordering `bestBid ≤ reservePrice ≤ bestAsk` holds; and
even when clamping forces `bestBid = 0`, the inequality
`reservePrice ≤ bestAsk` still holds — the second conjunct is
unconditional. -/
theorem C3_quote_ordering (s : BotState) (price : ℚ)
    (hγ : 0 < s.gamma) (hη : 0 ≤ s.eta) (hT : 0 ≤ s.T_end)
    (hgs : 0 ≤ s.grid_spacing) (hp : 0 ≤ price) :
    (0 ≤ ((calculate_avellaneda_prices s price).reserve_price : ℝ)
          - avellanedaDelta s.gamma s.eta s.sigma s.T_end s.grid_spacing price →
        (calculate_avellaneda_prices s price).best_bid
          ≤ ((calculate_avellaneda_prices s price).reserve_price : ℝ))
  ∧ ((calculate_avellaneda_prices s price).reserve_price : ℝ)
      ≤ (calculate_avellaneda_prices s price).best_ask := by
  have hδ : 0 ≤ avellanedaDelta s.gamma s.eta s.sigma s.T_end s.grid_spacing price :=
    avellanedaDelta_nonneg s.gamma s.eta s.sigma s.T_end s.grid_spacing price hγ hη hT hgs hp
  constructor
  · intro hclamp
    show max 0 (((calculate_avellaneda_prices s price).reserve_price : ℝ)
        - avellanedaDelta s.gamma s.eta s.sigma s.T_end s.grid_spacing price) ≤ _
    rw [max_eq_right hclamp]
    linarith
  · show _ ≤ max 0 (((calculate_avellaneda_prices s price).reserve_price : ℝ)
        + avellanedaDelta s.gamma s.eta s.sigma s.T_end s.grid_spacing price)
    exact le_trans (by linarith) (le_max_right _ _)

/-- Witness for C3 at the end-to-end scenario parameters (`gamma=1`,
`sigma=0.005`, `eta=100`, `T_end=1`, zero inventory, price `0.5`). -/
theorem C3_quote_ordering_witness :
    ((0 : ℚ) < 1 ∧ (0 : ℚ) ≤ 100 ∧ (0 : ℚ) ≤ 1 ∧ (0 : ℚ) ≤ 0.0006 ∧ (0 : ℚ) ≤ 0.5)
  ∧ ((calculate_avellaneda_prices
        { gamma := 1, eta := 100, sigma := 0.005, T_end := 1, grid_spacing := 0.0006 }
        0.5).reserve_price : ℝ)
      ≤ (calculate_avellaneda_prices
          { gamma := 1, eta := 100, sigma := 0.005, T_end := 1, grid_spacing := 0.0006 }
          0.5).best_ask :=
  ⟨⟨by norm_num, by norm_num, by norm_num, by norm_num, by norm_num⟩,
    (C3_quote_ordering
      { gamma := 1, eta := 100, sigma := 0.005, T_end := 1, grid_spacing := 0.0006 } 0.5
      (by norm_num) (by norm_num) (by norm_num) (by norm_num) (by norm_num)).2⟩

/-- Reserve price produced by the quote computation at net inventory `q`
(held entirely as long position) with the parameters of `s`. -/
noncomputable def reserve_price_at (s : BotState) (q price : ℚ) : ℚ :=
  (calculate_avellaneda_prices
    { s with long_position := q, short_position := 0 } price).reserve_price

/-- Counterexample to C4 as stated: the claim admits `sigma = 0` (it only
requires `sigma ≥ 0`), but at `gamma = 1, sigma = 0, T_end = 1`, market
price `0.5` and inventory `q = 1 > 0` the reserve price equals the
zero-inventory reserve price instead of being strictly smaller. -/
theorem C4_counterexample :
    (0 : ℚ) < 1 ∧ (0 : ℚ) ≤ 0 ∧ (0 : ℚ) < 1
  ∧ ¬ (reserve_price_at { gamma := 1, sigma := 0, T_end := 1 } 1 0.5
        < reserve_price_at { gamma := 1, sigma := 0, T_end := 1 } 0 0.5) := by
  refine ⟨by norm_num, le_refl 0, by norm_num, ?_⟩
  show ¬ ((0.5 : ℚ) - (1 - 0) * 1 * 0 ^ 2 * 1 < 0.5 - (0 - 0) * 1 * 0 ^ 2 * 1)
  norm_num

/-- C4 as amended: with `sigma > 0` (instead of `sigma ≥ 0`) the reserve
price is strictly decreasing in positive inventory and strictly increasing
in negative inventory, at any fixed market price and parameters
`gamma > 0`, `T_end > 0`. -/
theorem C4_amended_inventory_skew (s : BotState) (price q : ℚ)
    (hγ : 0 < s.gamma) (hσ : 0 < s.sigma) (hT : 0 < s.T_end) :
    (0 < q → reserve_price_at s q price < reserve_price_at s 0 price)
  ∧ (q < 0 → reserve_price_at s 0 price < reserve_price_at s q price) := by
  have hkey : ∀ r : ℚ, reserve_price_at s r price
      = price - r * s.gamma * s.sigma ^ 2 * s.T_end := by
    intro r
    show price - (r - 0) * s.gamma * s.sigma ^ 2 * s.T_end = _
    ring
  have hpos : 0 < s.gamma * s.sigma ^ 2 * s.T_end := by positivity
  constructor
  · intro hq
    rw [hkey, hkey]
    nlinarith
  · intro hq
    rw [hkey, hkey]
    nlinarith

/-- Witness for the amended C4 at `gamma=1, sigma=0.005, T_end=1`,
price `0.5`, inventories `1` and `-1`. -/
theorem C4_amended_inventory_skew_witness :
    ((0 : ℚ) < 1 ∧ (0 : ℚ) < 0.005 ∧ (0 : ℚ) < 1)
  ∧ reserve_price_at { gamma := 1, sigma := 0.005, T_end := 1 } 1 0.5
      < reserve_price_at { gamma := 1, sigma := 0.005, T_end := 1 } 0 0.5
  ∧ reserve_price_at { gamma := 1, sigma := 0.005, T_end := 1 } 0 0.5
      < reserve_price_at { gamma := 1, sigma := 0.005, T_end := 1 } (-1) 0.5 :=
  ⟨⟨by norm_num, by norm_num, by norm_num⟩,
    (C4_amended_inventory_skew { gamma := 1, sigma := 0.005, T_end := 1 } 0.5 1
      (by norm_num) (by norm_num) (by norm_num)).1 (by norm_num),
    (C4_amended_inventory_skew { gamma := 1, sigma := 0.005, T_end := 1 } 0.5 (-1)
      (by norm_num) (by norm_num) (by norm_num)).2 (by norm_num)⟩

/-- A list of `n` closes yields `n - 1` log returns. -/
lemma logReturns_length (closes : List ℚ) :
    (logReturns closes).length = closes.length - 1 := by
  induction closes with
  | nil => rfl
  | cons a rest ih =>
      cases rest with
      | nil => rfl
      | cons b rest' =>
          show (Real.log _ :: logReturns (b :: rest')).length = _
          simp only [List.length_cons] at ih ⊢
          omega

/-- All-identical closes produce all-zero log returns. -/
lemma logReturns_replicate (c : ℚ) (hc : c ≠ 0) :
    ∀ n, logReturns (List.replicate n c) = List.replicate (n - 1) (0 : ℝ) := by
  intro n
  induction n with
  | zero => rfl
  | succ m ih =>
      cases m with
      | zero => rfl
      | succ k =>
          show Real.log ((c : ℚ) / c : ℚ) :: logReturns (List.replicate (k + 1) c)
              = List.replicate (k + 1) (0 : ℝ)
          rw [div_self hc, ih]
          simp [List.replicate_succ]

/-- The mean of an all-zero sample is zero. -/
lemma sampleMean_replicate_zero (m : ℕ) :
    sampleMean (List.replicate m (0 : ℝ)) = 0 := by
  simp [sampleMean]

/-- The sample variance of an all-zero sample is zero (also for the empty
and singleton samples, where the real division by `length - 1` degenerates
to division by a non-positive number of the all-zero numerator). -/
lemma sampleVariance_replicate_zero (m : ℕ) :
    sampleVariance (List.replicate m (0 : ℝ)) = 0 := by
  simp [sampleVariance, sampleMean_replicate_zero, List.map_replicate]

/-- The sample standard deviation of an all-zero sample is zero. -/
lemma sampleStd_replicate_zero (m : ℕ) :
    sampleStd (List.replicate m (0 : ℝ)) = 0 := by
  rw [sampleStd, sampleVariance_replicate_zero, Real.sqrt_zero]

/-- C5.  The volatility estimator returns `0.0` on fewer than two candles;
on three or more candles it returns the sample standard deviation of the
per-period log returns `r_i = ln(close_i / close_im1)` (with two candles
the single-return sample standard deviation is undefined — NaN under
`ddof = 1` — and the estimator also returns `0.0`, covered by the second
branch of the definition); on any series of identical closes it returns
`0.0`, in particular on closes `[100, 100, 100]`. -/
theorem C5_historical_volatility :
    (∀ closes : List ℚ, closes.length < 2 → calculate_historical_volatility closes = 0)
  ∧ (∀ closes : List ℚ, 3 ≤ closes.length →
      calculate_historical_volatility closes = sampleStd (logReturns closes))
  ∧ (∀ (c : ℚ) (n : ℕ), c ≠ 0 →
      calculate_historical_volatility (List.replicate n c) = 0)
  ∧ calculate_historical_volatility [100, 100, 100] = 0 := by
  have h3 : ∀ (c : ℚ) (n : ℕ), c ≠ 0 →
      calculate_historical_volatility (List.replicate n c) = 0 := by
    intro c n hc
    rw [calculate_historical_volatility]
    split_ifs with h1 h2
    · rfl
    · rfl
    · rw [logReturns_replicate c hc, sampleStd_replicate_zero]
  refine ⟨?_, ?_, h3, ?_⟩
  · intro closes h
    rw [calculate_historical_volatility, if_pos h]
  · intro closes h
    rw [calculate_historical_volatility, if_neg (by omega),
      if_neg (by rw [logReturns_length]; omega)]
  · have := h3 100 3 (by norm_num)
    simpa using this

/-- Witness for C5: the insufficient-data branch on a one-candle series,
the sample-standard-deviation branch on a three-candle series, and the
identical-closes case. -/
theorem C5_historical_volatility_witness :
    (([(5 : ℚ)] : List ℚ).length < 2 ∧ calculate_historical_volatility [(5 : ℚ)] = 0)
  ∧ (3 ≤ ([1, 2, 4] : List ℚ).length
      ∧ calculate_historical_volatility [1, 2, 4] = sampleStd (logReturns [1, 2, 4]))
  ∧ ((2 : ℚ) ≠ 0 ∧ calculate_historical_volatility (List.replicate 5 (2 : ℚ)) = 0) :=
  ⟨⟨by decide, C5_historical_volatility.1 [(5 : ℚ)] (by decide)⟩,
    ⟨by decide, C5_historical_volatility.2.1 [1, 2, 4] (by decide)⟩,
    ⟨by decide, C5_historical_volatility.2.2.1 2 5 (by decide)⟩⟩

/-- C6 evaluated on the two failure shapes.  First conjunct: a network-style
failure (anything raising `requests.RequestException`, including timeouts,
HTTP errors and JSON decode errors) degrades to an empty candle sequence,
the volatility estimator returns `0.0`, the below-`1e-5` fallback fires,
and the calibrator returns `sigma = 0.005` with the fee-derived eta.
Second conjunct: the claim FAILS for a malformed 2xx response — a decoded
JSON array whose rows do not have the 8 declared columns makes the
`DataFrame` constructor raise `ValueError`, which the code does not catch,
so the calibrator propagates the error instead of returning parameters. -/
theorem C6_calibrator_failure_paths :
    (∀ taker_fee : ℚ,
      auto_calculate_params KlineResp.netErr taker_fee
        = Except.ok ((0.005 : ℝ), estimate_eta_from_fee taker_fee))
  ∧ auto_calculate_params (KlineResp.ok [[1, 2]]) 0.0005
      = Except.error "ValueError: mismatched number of columns" := by
  constructor
  · intro taker_fee
    show Except.ok
        (if calculate_historical_volatility [] < 1e-5 then (0.005 : ℝ)
          else calculate_historical_volatility [], estimate_eta_from_fee taker_fee) = _
    rw [if_pos]
    show calculate_historical_volatility [] < 1e-5
    rw [calculate_historical_volatility, if_pos (by norm_num)]
    norm_num
  · rfl

/-- Classify an external call as an order action for a given side:
placements, cancellations, take-profit orders and side initialisation.
`check_and_reduce_positions` (the tick-top risk primitive) and
`get_take_profit_quantity` (a sizing query) are not order actions. -/
def is_order_action_for (sd : Side) (c : ExtCall) : Bool :=
  match c with
  | ExtCall.checkAndReducePositions => false
  | ExtCall.getTakeProfitQuantity _ _ => false
  | ExtCall.initLongOrders => decide (sd = Side.long)
  | ExtCall.initShortOrders => decide (sd = Side.short)
  | ExtCall.cancelOrdersForSide sd' => decide (sd = sd')
  | ExtCall.placeTakeProfitOrder sd' _ _ => decide (sd = sd')
  | ExtCall.placeOrder _ _ _ _ sd' => decide (sd = sd')

/-- Calls attempted by `tryCalls` all come from the given block. -/
lemma tryCalls_mem (env : Env) (l : List ExtCall) :
    ∀ c ∈ (tryCalls env l).1, c ∈ l := by
  induction l with
  | nil =>
      intro c hc
      exact absurd hc (List.not_mem_nil c)
  | cons a cs ih =>
      intro c hc
      rw [tryCalls] at hc
      by_cases h : env.ok a = true
      · rw [if_pos h] at hc
        have hc' : c ∈ a :: (tryCalls env cs).1 := hc
        rcases List.mem_cons.mp hc' with rfl | hc2
        · exact List.mem_cons_self _ _
        · exact List.mem_cons_of_mem _ (ih c hc2)
      · rw [if_neg h] at hc
        have hc' : c ∈ [a] := hc
        simp only [List.mem_singleton] at hc'
        subst hc'
        exact List.mem_cons_self _ _

/-- Every call of the long-side order block targets the long side only. -/
lemma long_order_calls_no_short (s : BotState) :
    ∀ c ∈ long_order_calls s, is_order_action_for Side.short c = false := by
  intro c hc
  rw [long_order_calls] at hc
  rcases List.mem_cons.mp hc with rfl | hc
  · rfl
  · split_ifs at hc <;>
      simp only [List.mem_singleton, List.mem_cons, List.not_mem_nil, or_false] at hc
    · subst hc; rfl
    · rcases hc with rfl | rfl | rfl <;> rfl

/-- Every call of the short-side order block targets the short side only. -/
lemma short_order_calls_no_long (s : BotState) :
    ∀ c ∈ short_order_calls s, is_order_action_for Side.long c = false := by
  intro c hc
  rw [short_order_calls] at hc
  rcases List.mem_cons.mp hc with rfl | hc
  · rfl
  · split_ifs at hc <;>
      simp only [List.mem_singleton, List.mem_cons, List.not_mem_nil, or_false] at hc
    · subst hc; rfl
    · rcases hc with rfl | rfl | rfl <;> rfl

/-- The short-side branch of the tick never issues a long-side order
action. -/
lemma adjust_short_branch_no_long (env : Env) (s : BotState) (now : ℚ) :
    ∀ c ∈ (adjust_short_branch env s now).1, is_order_action_for Side.long c = false := by
  intro c hc
  rw [adjust_short_branch] at hc
  split_ifs at hc
  · have hc' : c ∈ [ExtCall.initShortOrders] := hc
    simp only [List.mem_singleton] at hc'
    subst hc'; rfl
  · have hc' : c ∈ ([] : List ExtCall) := hc
    exact absurd hc' (List.not_mem_nil c)
  · have hc' : c ∈ (tryCalls env (short_order_calls
        (update_mid_price s (some Side.short) s.latest_price))).1 := hc
    exact short_order_calls_no_long _ c (tryCalls_mem env _ c hc')

/-- The long-side branch of the tick never issues a short-side order
action. -/
lemma adjust_long_branch_no_short (env : Env) (s : BotState) (now : ℚ) :
    ∀ c ∈ (adjust_long_branch env s now).1, is_order_action_for Side.short c = false := by
  intro c hc
  rw [adjust_long_branch] at hc
  split_ifs at hc
  · have hc' : c ∈ [ExtCall.initLongOrders] := hc
    simp only [List.mem_singleton] at hc'
    subst hc'; rfl
  · have hc' : c ∈ ([] : List ExtCall) := hc
    exact absurd hc' (List.not_mem_nil c)
  · have hc' : c ∈ (tryCalls env (long_order_calls
        (update_mid_price s (some Side.long) s.latest_price))).1 := hc
    exact long_order_calls_no_short _ c (tryCalls_mem env _ c hc')

/-- When the position exceeds the threshold and the cooldown has not
elapsed, the long-side branch does nothing. -/
lemma adjust_long_branch_skip (env : Env) (s : BotState) (now : ℚ)
    (h1 : POSITION_THRESHOLD < s.long_position)
    (h2 : now - s.last_long_order_time < ORDER_COOLDOWN_TIME) :
    adjust_long_branch env s now = ([], s, true) := by
  have h0 : ¬ s.long_position = 0 := by
    intro h
    rw [h, POSITION_THRESHOLD] at h1
    norm_num at h1
  rw [adjust_long_branch, if_neg h0, if_pos ⟨h1, h2⟩]

/-- When the position exceeds the threshold and the cooldown has not
elapsed, the short-side branch does nothing. -/
lemma adjust_short_branch_skip (env : Env) (s : BotState) (now : ℚ)
    (h1 : POSITION_THRESHOLD < s.short_position)
    (h2 : now - s.last_short_order_time < ORDER_COOLDOWN_TIME) :
    adjust_short_branch env s now = ([], s, true) := by
  have h0 : ¬ s.short_position = 0 := by
    intro h
    rw [h, POSITION_THRESHOLD] at h1
    norm_num at h1
  rw [adjust_short_branch, if_neg h0, if_pos ⟨h1, h2⟩]

/-- The long-side branch never changes the short-side position mirror. -/
lemma adjust_long_branch_short_position (env : Env) (s : BotState) (now : ℚ) :
    (adjust_long_branch env s now).2.1.short_position = s.short_position := by
  rw [adjust_long_branch]
  split_ifs <;> simp [place_long_orders]

/-- The long-side branch never changes the short-side order-time mirror. -/
lemma adjust_long_branch_last_short (env : Env) (s : BotState) (now : ℚ) :
    (adjust_long_branch env s now).2.1.last_short_order_time = s.last_short_order_time := by
  rw [adjust_long_branch]
  split_ifs <;> simp [place_long_orders]

/-- C7.  If a side's position exceeds `POSITION_THRESHOLD` and fewer than
`ORDER_COOLDOWN_TIME` seconds have passed since that side's last order,
then the tick issues no order action for that side: no placement, no
cancellation, no take-profit, no side initialisation. -/
theorem C7_cooldown_no_order_actions (env : Env) (s : BotState) (now : ℚ) :
    (POSITION_THRESHOLD < s.long_position →
      now - s.last_long_order_time < ORDER_COOLDOWN_TIME →
      ∀ c ∈ (adjust_grid_strategy env s now).1, is_order_action_for Side.long c = false)
  ∧ (POSITION_THRESHOLD < s.short_position →
      now - s.last_short_order_time < ORDER_COOLDOWN_TIME →
      ∀ c ∈ (adjust_grid_strategy env s now).1, is_order_action_for Side.short c = false) := by
  constructor
  · intro h1 h2 c hc
    simp only [adjust_grid_strategy] at hc
    by_cases hcr : env.ok ExtCall.checkAndReducePositions = true
    · rw [if_pos hcr] at hc
      set u := if s.latest_price ≠ 0 then update_mid_price s none s.latest_price else s with hu
      have hup : u.long_position = s.long_position := by
        rw [hu]; split_ifs <;> simp
      have hut : u.last_long_order_time = s.last_long_order_time := by
        rw [hu]; split_ifs <;> simp
      rw [adjust_long_branch_skip env u now (by rw [hup]; exact h1)
        (by rw [hut]; exact h2)] at hc
      simp only [List.nil_append] at hc
      have hc' : c ∈ ExtCall.checkAndReducePositions :: (adjust_short_branch env u now).1 := hc
      rcases List.mem_cons.mp hc' with rfl | hc2
      · rfl
      · exact adjust_short_branch_no_long env u now c hc2
    · rw [if_neg hcr] at hc
      have hc' : c ∈ [ExtCall.checkAndReducePositions] := hc
      simp only [List.mem_singleton] at hc'
      subst hc'; rfl
  · intro h1 h2 c hc
    simp only [adjust_grid_strategy] at hc
    by_cases hcr : env.ok ExtCall.checkAndReducePositions = true
    · rw [if_pos hcr] at hc
      set u := if s.latest_price ≠ 0 then update_mid_price s none s.latest_price else s with hu
      have hup : u.short_position = s.short_position := by
        rw [hu]; split_ifs <;> simp
      have hut : u.last_short_order_time = s.last_short_order_time := by
        rw [hu]; split_ifs <;> simp
      by_cases hok : (adjust_long_branch env u now).2.2 = true
      · rw [if_pos hok] at hc
        rw [adjust_short_branch_skip env (adjust_long_branch env u now).2.1 now
          (by rw [adjust_long_branch_short_position, hup]; exact h1)
          (by rw [adjust_long_branch_last_short, hut]; exact h2)] at hc
        have hc' : c ∈ ExtCall.checkAndReducePositions ::
            ((adjust_long_branch env u now).1 ++ ([] : List ExtCall)) := hc
        simp only [List.append_nil] at hc'
        rcases List.mem_cons.mp hc' with rfl | hc2
        · rfl
        · exact adjust_long_branch_no_short env u now c hc2
      · rw [if_neg hok] at hc
        have hc' : c ∈ ExtCall.checkAndReducePositions ::
            (adjust_long_branch env u now).1 := hc
        rcases List.mem_cons.mp hc' with rfl | hc2
        · rfl
        · exact adjust_long_branch_no_short env u now c hc2
    · rw [if_neg hcr] at hc
      have hc' : c ∈ [ExtCall.checkAndReducePositions] := hc
      simp only [List.mem_singleton] at hc'
      subst hc'; rfl

/-- Witness for C7: position `501 > 500` on both sides, last order times
`0`, current time `30`, so `30 - 0 < 60`; no order action fires for either
side. -/
theorem C7_cooldown_no_order_actions_witness :
    (POSITION_THRESHOLD < (501 : ℚ) ∧ (30 : ℚ) - 0 < ORDER_COOLDOWN_TIME)
  ∧ (∀ c ∈ (adjust_grid_strategy ⟨fun _ => true⟩
        { long_position := 501, short_position := 501 } 30).1,
      is_order_action_for Side.long c = false)
  ∧ (∀ c ∈ (adjust_grid_strategy ⟨fun _ => true⟩
        { long_position := 501, short_position := 501 } 30).1,
      is_order_action_for Side.short c = false) :=
  ⟨⟨by norm_num [POSITION_THRESHOLD], by norm_num [ORDER_COOLDOWN_TIME]⟩,
    (C7_cooldown_no_order_actions ⟨fun _ => true⟩
        { long_position := 501, short_position := 501 } 30).1
      (by norm_num [POSITION_THRESHOLD]) (by norm_num [ORDER_COOLDOWN_TIME]),
    (C7_cooldown_no_order_actions ⟨fun _ => true⟩
        { long_position := 501, short_position := 501 } 30).2
      (by norm_num [POSITION_THRESHOLD]) (by norm_num [ORDER_COOLDOWN_TIME])⟩

/-- When a position is held, the long-side branch never raises: its body is
the try-wrapped `place_long_orders` (or the cooldown skip). -/
lemma adjust_long_branch_ok_of_position (env : Env) (s : BotState) (now : ℚ)
    (h : ¬ s.long_position = 0) :
    (adjust_long_branch env s now).2.2 = true := by
  rw [adjust_long_branch, if_neg h]
  split_ifs <;> rfl

/-- Environment in which only the external long-side initialisation call
raises. -/
def envFailInitLong : Env :=
  ⟨fun c => match c with
    | ExtCall.initLongOrders => false
    | _ => true⟩

/-- Environment in which every delegated order action fails except the
tick-top risk primitive and the short-side initialisation: in particular
every call attempted by the long side raises. -/
def envFailLongActions : Env :=
  ⟨fun c => match c with
    | ExtCall.checkAndReducePositions => true
    | ExtCall.initShortOrders => true
    | _ => false⟩

/-- Counterexample to C9 as stated: with both positions flat, a failure of
the long-side initialisation call (an order-placement primitive of the
long branch) is NOT caught — the tick stops after it, the short branch
never runs (its initialisation call is absent from the trace), and the
tick ends with an uncaught exception. -/
theorem C9_counterexample :
    (adjust_grid_strategy envFailInitLong { } 0).1
        = [ExtCall.checkAndReducePositions, ExtCall.initLongOrders]
  ∧ ExtCall.initShortOrders ∉ (adjust_grid_strategy envFailInitLong { } 0).1
  ∧ (adjust_grid_strategy envFailInitLong { } 0).2.2 = false := by
  have h1 : (adjust_grid_strategy envFailInitLong { } 0).1
      = [ExtCall.checkAndReducePositions, ExtCall.initLongOrders] := rfl
  refine ⟨h1, ?_, rfl⟩
  rw [h1]
  simp

/-- C9 as amended: failures inside a side's order-action path — the
placement, cancellation and take-profit calls of `place_long_orders` /
`place_short_orders`, which run whenever that side holds a position — are
caught and logged locally and the other side's branch still executes in
the same tick; but a failure of the side-initialisation call (taken when
the position is zero) is not caught and aborts the tick.  Stated for a
long side holding a position and a flat short side: whatever external
calls fail, the long branch reports no exception and the short branch
still runs its initialisation. -/
theorem C9_amended_catch_scope (env : Env) (s : BotState) (now : ℚ)
    (hcr : env.ok ExtCall.checkAndReducePositions = true)
    (hl : ¬ s.long_position = 0) (hs : s.short_position = 0) :
    ExtCall.initShortOrders ∈ (adjust_grid_strategy env s now).1
  ∧ (adjust_grid_strategy env s now).2.2 = env.ok ExtCall.initShortOrders := by
  simp only [adjust_grid_strategy]
  rw [if_pos hcr]
  set u := if s.latest_price ≠ 0 then update_mid_price s none s.latest_price else s with hu
  have hul : ¬ u.long_position = 0 := by
    rw [hu]; split_ifs <;> simpa using hl
  have hok := adjust_long_branch_ok_of_position env u now hul
  rw [if_pos hok]
  have hus : (adjust_long_branch env u now).2.1.short_position = 0 := by
    rw [adjust_long_branch_short_position, hu]
    split_ifs <;> simpa using hs
  have hrs : adjust_short_branch env (adjust_long_branch env u now).2.1 now
      = ([ExtCall.initShortOrders], (adjust_long_branch env u now).2.1,
          env.ok ExtCall.initShortOrders) := by
    rw [adjust_short_branch, if_pos hus]
  rw [hrs]
  exact ⟨List.mem_cons_of_mem _ (List.mem_append_right _ (List.mem_singleton.mpr rfl)), rfl⟩

/-- Witness for the amended C9: the long side holds a position and all of
its order-action calls raise, yet the short side still runs its
initialisation in the same tick. -/
theorem C9_amended_catch_scope_witness :
    (envFailLongActions.ok ExtCall.checkAndReducePositions = true
      ∧ ¬ ({ long_position := 1 } : BotState).long_position = 0
      ∧ ({ long_position := 1 } : BotState).short_position = 0)
  ∧ ExtCall.initShortOrders
      ∈ (adjust_grid_strategy envFailLongActions { long_position := 1 } 0).1 :=
  ⟨⟨rfl, by decide, rfl⟩,
    (C9_amended_catch_scope envFailLongActions { long_position := 1 } 0 rfl
      (by decide) rfl).1⟩
